import Mathlib

/-!
Verification of the single-connection RPC framework (scrpc): a shallow
embedding of `timedsocket.py`, `server.py` and `client.py` in Lean 4,
with theorems settling the frozen claims about the framing transport,
the RPC wire protocol, the server worker/connection lifecycle and the
client proxy error taxonomy.
-/

namespace Scrpc

/-! ## Byte-level transport: `TimedSocket.send_lp` / `TimedSocket.recv_lp`

Bytes are modelled as natural numbers; a Python byte string is a list of
bytes.  `struct.pack('!I', n)` is the 4-byte big-endian encoding of `n`
(raising `struct.error` when `n` does not fit in 32 bits), and
`struct.unpack('!I', b)` succeeds exactly on 4-byte inputs. -/

abbrev Bytes := List Nat

/-- `struct.pack('!I', n)` for `n < 2^32`: big-endian 4-byte encoding. -/
def pack32 (n : Nat) : Bytes :=
  [n / 16777216 % 256, n / 65536 % 256, n / 256 % 256, n % 256]

/-- `struct.unpack('!I', b)` on a 4-byte string: big-endian value. -/
def unpack32 (b : Bytes) : Nat :=
  List.foldl (fun acc x => acc * 256 + x) 0 b

set_option linter.unusedVariables false in
/-- The chunking loop of `TimedSocket.send_lp`: the framed buffer is
written as successive slices `message[sent:sent+4096]` until all bytes
are sent (each underlying `send` is given at most 4096 bytes). -/
def chunkify (m : Bytes) : List Bytes :=
  if h : m = [] then []
  else m.take 4096 :: chunkify (m.drop 4096)
termination_by m.length
decreasing_by
  have hl : 0 < m.length := List.length_pos.mpr h
  simp only [List.length_drop]
  omega

/-- `TimedSocket.send_lp(msg)`: prefix the payload with
`struct.pack('!I', len(msg))` (a `struct.error` propagates when the
length does not fit 32 bits) and send the framed buffer in chunks of at
most 4096 bytes.  The result is the list of byte strings handed to the
underlying `send`, in order. -/
def send_lp (msg : Bytes) : Except String (List Bytes) :=
  if msg.length < 2 ^ 32 then
    Except.ok (chunkify (pack32 msg.length ++ msg))
  else
    Except.error "struct.error"

/-- One interaction of the payload loop of `recv_lp` with the underlying
`TimedSocket.recv`: either a byte string is returned (`[]` meaning the
peer closed the connection) or `TimedSocket.Timeout` is raised. -/
inductive NetEv
  | chunk (b : Bytes)
  | tmo
deriving DecidableEq

/-- Result of `TimedSocket.recv_lp`. -/
inductive LpRes
  | closed
  | ok (m : Bytes)
  | tsErr (msg : String)
  | tmoErr
  | stuck
deriving DecidableEq

def insufficientMsg : String := "Not enough data was received."

def closedUnexpMsg : String := "Connection was closed unexpectably."

def invalidFormatMsg : String := "Invalid format for lp-mode."

/-- The payload loop of `TimedSocket.recv_lp`: while fewer than
`msg_length` bytes have arrived, call `recv(min(4096, remaining))`.
`r` is the number of bytes still missing, `timedOut` the one-timeout
tolerance flag, `acc` the concatenation of the chunk table so far.
An empty chunk is a fatal close; a timeout is retried once, a second
consecutive timeout raises the fatal insufficient-data error; any
received chunk resets the tolerance flag.  `stuck` is a model artifact
for an exhausted event script (the real loop would still be blocked). -/
def recvPayload (evs : List NetEv) (r : Nat) (timedOut : Bool) (acc : Bytes) : LpRes :=
  if r = 0 then LpRes.ok acc
  else
    match evs with
    | [] => LpRes.stuck
    | NetEv.tmo :: rest =>
        if timedOut then LpRes.tsErr insufficientMsg
        else recvPayload rest r true acc
    | NetEv.chunk b :: rest =>
        if b.isEmpty then LpRes.tsErr closedUnexpMsg
        else recvPayload rest (r - b.length) false (acc ++ b)

/-- `TimedSocket.recv_lp`: read 4 bytes for the length indicator (an
empty read means the peer closed; `struct.unpack` on a wrong byte count
raises the fatal format error; a timeout propagates), then run the
payload loop. -/
def recv_lp (evs : List NetEv) : LpRes :=
  match evs with
  | [] => LpRes.stuck
  | NetEv.tmo :: _ => LpRes.tmoErr
  | NetEv.chunk b :: rest =>
      if b.isEmpty then LpRes.closed
      else if b.length = 4 then recvPayload rest (unpack32 b) false []
      else LpRes.tsErr invalidFormatMsg

/-- No two consecutive timeout events occur in the script. -/
def noDoubleTmo : List NetEv → Bool
  | [] => true
  | e :: rest =>
    match e, rest with
    | NetEv.tmo, NetEv.tmo :: _ => false
    | _, _ => noDoubleTmo rest

theorem noDoubleTmo_cons (e : NetEv) (rest : List NetEv)
    (h : noDoubleTmo (e :: rest) = true) : noDoubleTmo rest = true := by
  cases e <;> cases rest <;> simp_all [noDoubleTmo]
  rename_i e' rest'
  cases e' <;> simp_all [noDoubleTmo]

theorem noDoubleTmo_tmo_head (rest : List NetEv)
    (h : noDoubleTmo (NetEv.tmo :: rest) = true) :
    rest.head? ≠ some NetEv.tmo := by
  cases rest with
  | nil => simp
  | cons e' rest' => cases e' <;> simp_all [noDoubleTmo]

theorem unpack32_pack32 (n : Nat) (h : n < 2 ^ 32) :
    unpack32 (pack32 n) = n := by
  simp only [unpack32, pack32, List.foldl]
  omega

theorem pack32_length (n : Nat) : (pack32 n).length = 4 := rfl

theorem chunkify_join (m : Bytes) : (chunkify m).flatten = m := by
  induction m using chunkify.induct with
  | case1 => simp [chunkify]
  | case2 m h ih =>
    rw [chunkify]
    simp only [h, dite_false]
    simp [ih, List.take_append_drop]

theorem chunkify_bounded (m : Bytes) :
    ∀ c ∈ chunkify m, c.length ≤ 4096 := by
  induction m using chunkify.induct with
  | case1 => simp [chunkify]
  | case2 m h ih =>
    rw [chunkify]
    simp only [h, dite_false]
    intro c hc
    rcases List.mem_cons.mp hc with hc | hc
    · subst hc
      simp [List.length_take]
    · exact ih c hc

theorem recvPayload_chunks (parts : List Bytes) (acc : Bytes)
    (hne : ∀ p ∈ parts, p ≠ []) :
    recvPayload (parts.map NetEv.chunk) parts.flatten.length false acc =
      LpRes.ok (acc ++ parts.flatten) := by
  induction parts generalizing acc with
  | nil => simp [recvPayload]
  | cons p ps ih =>
    have hp : p ≠ [] := hne p (List.mem_cons_self p ps)
    have hlen : 0 < p.length := List.length_pos.mpr hp
    rw [recvPayload.eq_def]
    have hr : ¬(p.length + ps.flatten.length = 0) := by omega
    simp only [List.flatten_cons, List.length_append, List.map_cons, hr, if_false]
    have hemp : p.isEmpty = false := by
      cases p
      · exact absurd rfl hp
      · rfl
    simp only [hemp, Bool.false_eq_true, if_false]
    have hsub : p.length + ps.flatten.length - p.length = ps.flatten.length := by omega
    rw [hsub, ih (acc ++ p) (fun q hq => hne q (List.mem_cons_of_mem p hq))]
    simp

/-- C1: framing round-trip.  For every byte payload `P` whose length
fits the 4-byte unsigned length field (this covers the empty payload
and payloads larger than 64KB), `send_lp` succeeds, the byte strings it
hands to the underlying `send` are each at most 4096 bytes long and
concatenate to the 4-byte big-endian length followed by `P`; and
`recv_lp` on the receiving side — for any way (`parts`) the network
delivers the payload bytes in nonempty chunks — yields exactly `P`. -/
theorem C1_framing_roundtrip (msg : Bytes) (parts : List Bytes)
    (hlen : msg.length < 2 ^ 32)
    (hne : ∀ p ∈ parts, p ≠ [])
    (hjoin : parts.flatten = msg) :
    ∃ chunks, send_lp msg = Except.ok chunks ∧
      chunks.flatten = pack32 msg.length ++ msg ∧
      (∀ c ∈ chunks, c.length ≤ 4096) ∧
      recv_lp (NetEv.chunk (pack32 msg.length) :: parts.map NetEv.chunk) =
        LpRes.ok msg := by
  refine ⟨chunkify (pack32 msg.length ++ msg), ?_, chunkify_join _,
    chunkify_bounded _, ?_⟩
  · simp only [send_lp]
    rw [if_pos hlen]
  · rw [recv_lp]
    have h4 : (pack32 msg.length).length = 4 := pack32_length _
    have hemp : (pack32 msg.length).isEmpty = false := by
      simp [List.isEmpty_iff]
      intro hc
      have := congrArg List.length hc
      simp [h4] at this
    simp only [hemp, Bool.false_eq_true, if_false, h4, if_true,
      unpack32_pack32 msg.length hlen]
    have := recvPayload_chunks parts [] hne
    rw [hjoin] at this
    simpa using this

/-- C1 witness: a concrete instantiation with payload `[1, 2, 3]`
delivered in two chunks. -/
theorem C1_framing_roundtrip_witness :
    ∃ chunks, send_lp [1, 2, 3] = Except.ok chunks ∧
      chunks.flatten = pack32 3 ++ [1, 2, 3] ∧
      (∀ c ∈ chunks, c.length ≤ 4096) ∧
      recv_lp (NetEv.chunk (pack32 3) ::
        List.map NetEv.chunk [[1, 2], [3]]) = LpRes.ok [1, 2, 3] :=
  C1_framing_roundtrip [1, 2, 3] [[1, 2], [3]] (by decide) (by decide) rfl

theorem recvPayload_no_insufficient (evs : List NetEv) :
    ∀ r t acc, noDoubleTmo evs = true →
    (t = true → evs.head? ≠ some NetEv.tmo) →
    recvPayload evs r t acc ≠ LpRes.tsErr insufficientMsg := by
  induction evs with
  | nil =>
    intro r t acc _ _
    rw [recvPayload.eq_def]
    split <;> simp
  | cons e rest ih =>
    intro r t acc h1 h2
    rw [recvPayload.eq_def]
    by_cases hr : r = 0
    · simp [hr]
    · simp only [hr, if_false]
      cases e with
      | tmo =>
        have ht : t = false := by
          cases t
          · rfl
          · exact absurd rfl (h2 rfl)
        simp only [ht, Bool.false_eq_true, if_false]
        exact ih r true acc (noDoubleTmo_cons _ _ h1)
          (fun _ => noDoubleTmo_tmo_head rest h1)
      | chunk b =>
        by_cases hb : b.isEmpty
        · simp only [hb, if_true]
          simp [closedUnexpMsg, insufficientMsg]
        · simp only [hb, if_false]
          exact ih (r - b.length) false (acc ++ b)
            (noDoubleTmo_cons _ _ h1) (by simp)

/-- C4: the double-timeout tolerance policy of the `recv_lp` payload
loop.  (1) For any event script with no two consecutive timeouts
(starting with the tolerance flag clear), the loop never raises the
fatal "Not enough data was received." error: a single consecutive
timeout is always tolerated.  (2) Two consecutive timeouts with no
intervening chunk raise exactly that fatal error.  (3) A successfully
received chunk resets the tolerance: after timeout–chunk, a further
timeout is again tolerated and the loop retries. -/
theorem C4_double_timeout_policy :
    (∀ evs r t acc, noDoubleTmo evs = true →
      (t = true → evs.head? ≠ some NetEv.tmo) →
      recvPayload evs r t acc ≠ LpRes.tsErr insufficientMsg) ∧
    (∀ evs r acc, 0 < r →
      recvPayload (NetEv.tmo :: NetEv.tmo :: evs) r false acc =
        LpRes.tsErr insufficientMsg) ∧
    (∀ b evs r acc, b ≠ [] → b.length < r →
      recvPayload (NetEv.tmo :: NetEv.chunk b :: NetEv.tmo :: evs) r false acc =
        recvPayload evs (r - b.length) true (acc ++ b)) := by
  refine ⟨fun evs => recvPayload_no_insufficient evs, ?_, ?_⟩
  · intro evs r acc hr
    have hr0 : ¬(r = 0) := by omega
    simp [recvPayload, hr0]
  · intro b evs r acc hb hlt
    have hr0 : ¬(r = 0) := by omega
    have hemp : b.isEmpty = false := by
      cases b
      · exact absurd rfl hb
      · rfl
    have hr1 : ¬(r - b.length = 0) := by omega
    simp [recvPayload, hr0, hr1, hemp]

/-- C4 witness: a double timeout on a 1-byte payload is fatal, while a
script alternating timeouts with chunks (no two consecutive) delivers
the payload. -/
theorem C4_double_timeout_policy_witness :
    recvPayload [NetEv.tmo, NetEv.tmo] 1 false [] =
      LpRes.tsErr insufficientMsg ∧
    recvPayload [NetEv.tmo, NetEv.chunk [7], NetEv.tmo, NetEv.chunk [9]]
      2 false [] ≠ LpRes.tsErr insufficientMsg :=
  ⟨C4_double_timeout_policy.2.1 [] 1 [] (by decide),
   C4_double_timeout_policy.1 _ 2 false [] (by decide) (by decide)⟩

/-! ## Timeout-override handling of `accept` / `send` / `recv`

Each of the three wrappers begins with the same prologue:
`if not timeout: timeout = self.timeout` — in Python, `not timeout` is
true both for `None` (no override) and for an explicit `0`/`0.0`
override — `else: if timeout < 0: raise ValueError`, and then calls
`select(..., timeout)`.  The `select` multiplexer is modelled as an
oracle from the wait bound actually used to one of its three outcomes
(exceptional condition / readiness / no activity), so the wait bound
that the code passes to `select` is observable.  Python float timeouts
are modelled as rationals. -/

/-- Outcome of a `select` call: exceptional condition on the socket,
readiness (readable/writable), or no activity within the wait bound. -/
inductive SelOut
  | ready
  | tmo
  | exc
deriving DecidableEq

/-- Result of a timed socket operation. -/
inductive TsRes (α : Type)
  | ok (a : α)
  | timeout
  | brokenErr
  | valueErr
deriving DecidableEq

/-- The body of `TimedSocket.recv` after the timeout prologue, given
the wait bound `w` it passes to `select`: an exceptional condition is
the fatal "Connection broken?" error, readability returns up to
`buffersize` pending bytes, no activity raises `Timeout`. -/
def recvCore (w : ℚ) (sel : ℚ → SelOut) (pending : Bytes)
    (buffersize : Nat) : TsRes Bytes :=
  match sel w with
  | SelOut.exc => TsRes.brokenErr
  | SelOut.ready => TsRes.ok (pending.take buffersize)
  | SelOut.tmo => TsRes.timeout

/-- `TimedSocket.recv(buffersize, timeout)` with default timeout
`dflt`: the prologue `if not timeout: timeout = self.timeout` treats
both `None` and `0` as "no override"; a negative override raises
`ValueError`; otherwise the override is used. -/
def TimedSocket.recv (dflt : ℚ) (sel : ℚ → SelOut) (pending : Bytes)
    (buffersize : Nat) (tmo? : Option ℚ) : TsRes Bytes :=
  match tmo? with
  | none => recvCore dflt sel pending buffersize
  | some t =>
      if t = 0 then recvCore dflt sel pending buffersize
      else if t < 0 then TsRes.valueErr
      else recvCore t sel pending buffersize

/-- The body of `TimedSocket.accept` after the timeout prologue:
readiness performs the native accept (returning the wrapped
connection, modelled as `Unit`). -/
def acceptCore (w : ℚ) (sel : ℚ → SelOut) : TsRes Unit :=
  match sel w with
  | SelOut.exc => TsRes.brokenErr
  | SelOut.ready => TsRes.ok ()
  | SelOut.tmo => TsRes.timeout

/-- `TimedSocket.accept(timeout)`: same prologue as `recv`. -/
def TimedSocket.accept (dflt : ℚ) (sel : ℚ → SelOut)
    (tmo? : Option ℚ) : TsRes Unit :=
  match tmo? with
  | none => acceptCore dflt sel
  | some t =>
      if t = 0 then acceptCore dflt sel
      else if t < 0 then TsRes.valueErr
      else acceptCore t sel

/-- The body of `TimedSocket.send` after the timeout prologue: on
writability the native `send` transmits `kern message` bytes (the
kernel decides how many are taken). -/
def sendCore (w : ℚ) (sel : ℚ → SelOut) (kern : Bytes → Nat)
    (message : Bytes) : TsRes Nat :=
  match sel w with
  | SelOut.exc => TsRes.brokenErr
  | SelOut.ready => TsRes.ok (kern message)
  | SelOut.tmo => TsRes.timeout

/-- `TimedSocket.send(message, timeout)`: same prologue as `recv`. -/
def TimedSocket.send (dflt : ℚ) (sel : ℚ → SelOut) (kern : Bytes → Nat)
    (message : Bytes) (tmo? : Option ℚ) : TsRes Nat :=
  match tmo? with
  | none => sendCore dflt sel kern message
  | some t =>
      if t = 0 then sendCore dflt sel kern message
      else if t < 0 then TsRes.valueErr
      else sendCore t sel kern message

/-- A `select` oracle that reports readiness exactly when the wait
bound it is given is `0`: it distinguishes "the operation waited with
bound 0" from any other wait bound. -/
def selZeroReady : ℚ → SelOut := fun w => if w = 0 then SelOut.ready else SelOut.tmo

/-- C9 counterexample: an explicit timeout override of `0` does **not**
mean a zero wait.  Against the oracle `selZeroReady` (ready iff the
wait bound is 0) with default timeout 10, `recv` with override `some 0`
times out — it passed the default 10, not 0, to `select` — whereas a
genuine zero wait (`recvCore 0`) would have returned the pending byte.
The same holds for `accept` and `send`.  This refutes the claim that an
explicitly supplied override of 0 seconds is used as the wait bound. -/
theorem C9_counterexample :
    TimedSocket.recv 10 selZeroReady [1] 1 (some 0) = TsRes.timeout ∧
    recvCore 0 selZeroReady [1] 1 = TsRes.ok [1] ∧
    TimedSocket.accept 10 selZeroReady (some 0) = TsRes.timeout ∧
    TimedSocket.send 10 selZeroReady List.length [1] (some 0) = TsRes.timeout := by
  refine ⟨?_, ?_, ?_, ?_⟩ <;> decide

/-- C9 (amended): for `accept`, `send` and `recv`, a strictly positive
explicit override `t` is used as the wait bound passed to `select`
(the default is irrelevant); with no override the default timeout is
the wait bound; an explicit override of `0` falls back to the default
(it is treated as "no override" by `if not timeout`); and a negative
override raises `ValueError`. -/
theorem C9_timeout_override (t : ℚ) (dflt : ℚ) (sel : ℚ → SelOut)
    (pending : Bytes) (buffersize : Nat) (kern : Bytes → Nat)
    (message : Bytes) (ht : 0 < t) :
    (TimedSocket.recv dflt sel pending buffersize (some t) =
        recvCore t sel pending buffersize ∧
      TimedSocket.recv dflt sel pending buffersize none =
        recvCore dflt sel pending buffersize ∧
      TimedSocket.recv dflt sel pending buffersize (some 0) =
        recvCore dflt sel pending buffersize ∧
      TimedSocket.recv dflt sel pending buffersize (some (-t)) =
        TsRes.valueErr) ∧
    (TimedSocket.accept dflt sel (some t) = acceptCore t sel ∧
      TimedSocket.accept dflt sel none = acceptCore dflt sel ∧
      TimedSocket.accept dflt sel (some 0) = acceptCore dflt sel ∧
      TimedSocket.accept dflt sel (some (-t)) = TsRes.valueErr) ∧
    (TimedSocket.send dflt sel kern message (some t) =
        sendCore t sel kern message ∧
      TimedSocket.send dflt sel kern message none =
        sendCore dflt sel kern message ∧
      TimedSocket.send dflt sel kern message (some 0) =
        sendCore dflt sel kern message ∧
      TimedSocket.send dflt sel kern message (some (-t)) =
        TsRes.valueErr) := by
  have hne : ¬(t = 0) := ne_of_gt ht
  have hnlt : ¬(t < 0) := by linarith
  have hnegne : ¬((-t : ℚ) = 0) := by
    intro hc
    exact hne (by linarith)
  have hneglt : (-t : ℚ) < 0 := by linarith
  refine ⟨⟨?_, rfl, ?_, ?_⟩, ⟨?_, rfl, ?_, ?_⟩, ⟨?_, rfl, ?_, ?_⟩⟩ <;>
    simp [TimedSocket.recv, TimedSocket.accept, TimedSocket.send,
      hne, hnlt, hnegne, hneglt]

/-- C9 witness: the amended override semantics at `t = 3`, default 10,
against the `selZeroReady` oracle. -/
theorem C9_timeout_override_witness :
    (TimedSocket.recv 10 selZeroReady [1] 1 (some 3) =
        recvCore 3 selZeroReady [1] 1 ∧
      TimedSocket.recv 10 selZeroReady [1] 1 none =
        recvCore 10 selZeroReady [1] 1 ∧
      TimedSocket.recv 10 selZeroReady [1] 1 (some 0) =
        recvCore 10 selZeroReady [1] 1 ∧
      TimedSocket.recv 10 selZeroReady [1] 1 (some (-3)) =
        TsRes.valueErr) ∧
    (TimedSocket.accept 10 selZeroReady (some 3) = acceptCore 3 selZeroReady ∧
      TimedSocket.accept 10 selZeroReady none = acceptCore 10 selZeroReady ∧
      TimedSocket.accept 10 selZeroReady (some 0) = acceptCore 10 selZeroReady ∧
      TimedSocket.accept 10 selZeroReady (some (-3)) = TsRes.valueErr) ∧
    (TimedSocket.send 10 selZeroReady List.length [1] (some 3) =
        sendCore 3 selZeroReady List.length [1] ∧
      TimedSocket.send 10 selZeroReady List.length [1] none =
        sendCore 10 selZeroReady List.length [1] ∧
      TimedSocket.send 10 selZeroReady List.length [1] (some 0) =
        sendCore 10 selZeroReady List.length [1] ∧
      TimedSocket.send 10 selZeroReady List.length [1] (some (-3)) =
        TsRes.valueErr) :=
  C9_timeout_override 3 10 selZeroReady [1] 1 List.length [1] (by norm_num)

/-! ## Values and the serializer

The RPC payloads are Python strings; frames are modelled as lists of
characters so that the byte-exact slicing of the protocol code
(`cmd[:7]`, `cmd[8:]`, `response[:4]`, `response[5:]`, `response[10:]`,
`result[7:]`) is faithful.  The serializer stands for `cPickle` on the
value domain used here (naturals, booleans, flat tuples of naturals,
and exception objects): `dumps` is total on this domain — as
`cPickle.dumps` is on these values, so the `PicklingError` branches of
the original are unreachable — while `loads` fails on any string that
is not an encoding (the `UnpicklingError`/`ImportError` case). -/

abbrev Chars := List Char

def str (s : String) : Chars := s.toList

/-- The transferable values: naturals, booleans, flat tuples of
naturals (argument tuples), and exception objects carrying a message. -/
inductive PyVal
  | vnat (n : Nat)
  | vbool (b : Bool)
  | vtup (args : List Nat)
  | vexc (m : Chars)
deriving DecidableEq

def encNat (n : Nat) : Chars := List.replicate n 'x'

def encArgs : List Nat → Chars
  | [] => []
  | a :: rest => encNat a ++ ';' :: encArgs rest

/-- `cPickle.dumps` on the modelled value domain (total, injective). -/
def dumps : PyVal → Chars
  | PyVal.vnat n => 'I' :: encNat n
  | PyVal.vbool true => ['B', '1']
  | PyVal.vbool false => ['B', '0']
  | PyVal.vtup args => 'T' :: encArgs args
  | PyVal.vexc m => 'E' :: m

def decArgs : Chars → Nat → Option (List Nat)
  | [], acc => if acc = 0 then some [] else none
  | c :: cs, acc =>
      if c = 'x' then decArgs cs (acc + 1)
      else if c = ';' then Option.map (fun l => acc :: l) (decArgs cs 0)
      else none

/-- `cPickle.loads`: `none` models `UnpicklingError`/`ImportError`. -/
def loads : Chars → Option PyVal
  | 'I' :: rest =>
      if rest.all (fun c => c == 'x') then some (PyVal.vnat rest.length)
      else none
  | ['B', '1'] => some (PyVal.vbool true)
  | ['B', '0'] => some (PyVal.vbool false)
  | 'T' :: rest => Option.map PyVal.vtup (decArgs rest 0)
  | 'E' :: rest => some (PyVal.vexc rest)
  | _ => none

theorem decArgs_encNat (a : Nat) (cs : Chars) (k : Nat) :
    decArgs (encNat a ++ cs) k = decArgs cs (k + a) := by
  induction a generalizing k with
  | zero => simp [encNat]
  | succ a ih =>
    have h1 : encNat (a + 1) = 'x' :: encNat a := by
      simp [encNat, List.replicate_succ]
    have h2 : k + 1 + a = k + (a + 1) := by omega
    rw [h1, List.cons_append]
    simp [decArgs, ih (k + 1), h2]

theorem decArgs_encArgs (args : List Nat) :
    decArgs (encArgs args) 0 = some args := by
  induction args with
  | nil => simp [encArgs, decArgs]
  | cons a rest ih =>
    simp only [encArgs]
    rw [decArgs_encNat a (';' :: encArgs rest) 0]
    simp only [decArgs]
    norm_num
    simp [ih]

theorem loads_dumps (v : PyVal) : loads (dumps v) = some v := by
  cases v with
  | vnat n =>
    simp only [dumps, loads]
    have hall : (encNat n).all (fun c => c == 'x') = true := by
      simp only [encNat, List.all_eq_true, List.mem_replicate]
      intro c hc
      simp [hc.2]
    have hlen : (encNat n).length = n := List.length_replicate n 'x'
    simp [hall, hlen]
  | vbool b => cases b <;> rfl
  | vtup args => simp [dumps, loads, decArgs_encArgs]
  | vexc m => rfl

/-! ## Client model: `SCProxy.make_rpc_call`

The proxy's call path is a straight-line sequence of socket operations
performed under the proxy lock; each operation's result is scripted as
an event.  `recvTmo` is a `TimedSocket.Timeout`, `recvTsErr` any other
`TimedSocket.Exception` (the generic transport faults: "Connection
broken?", "Not enough data was received.", "Invalid format for
lp-mode.", "Connection was closed unexpectably."), `recvOther` any
exception outside the `TimedSocket` hierarchy.  The result records the
call outcome, the proxy's `__connected` flag after the call, and the
frames the proxy successfully handed to `send_lp`, in order.  `stuck`
is a model artifact for an exhausted or ill-typed script. -/

inductive CEv
  | connOk
  | connErr
  | sendOk
  | sendErr
  | recvFrame (s : Chars)
  | recvTmo
  | recvTsErr
  | recvOther
deriving DecidableEq

inductive COut
  | ok (v : PyVal)
  | remoteError (m : Chars)
  | commError (m : Chars)
  | marshalingError (m : Chars)
  | raised (v : PyVal)
  | stuck
deriving DecidableEq

structure CRes where
  out : COut
  connected : Bool
  sent : List Chars
deriving DecidableEq

/-- Steps 7–8 of `make_rpc_call`: await the final result with
`recv_lp(MAX_CALL_LENGTH)`.  `except (TimedSocket.Timeout,
TimedSocket.Exception)` — both members of the tuple — maps to
`RemoteError('Timeout while performing remote function.')` with no
disconnect; any other exception maps to disconnect plus
`CommunicationError`.  An empty frame is peer close (disconnect +
`CommunicationError`); an `EXCEPTION` frame re-raises the deserialized
error (`RemoteError('Unknown exception raised on server.')` when it
does not deserialize); otherwise `result[7:]` is deserialized and
returned, a failure being `MarshalingError`. -/
def mrcAwaitResult (evs : List CEv) : CRes :=
  match evs with
  | CEv.recvFrame s :: _ =>
      if s = [] then ⟨COut.commError (str "Connection closed by server."), false, []⟩
      else if s.take 9 = str "EXCEPTION" then
        match loads (s.drop 10) with
        | some e => ⟨COut.raised e, true, []⟩
        | none => ⟨COut.remoteError (str "Unknown exception raised on server."), true, []⟩
      else
        match loads (s.drop 7) with
        | some v => ⟨COut.ok v, true, []⟩
        | none => ⟨COut.marshalingError (str "Error unmarshalling result."), true, []⟩
  | CEv.recvTmo :: _ =>
      ⟨COut.remoteError (str "Timeout while performing remote function."), true, []⟩
  | CEv.recvTsErr :: _ =>
      ⟨COut.remoteError (str "Timeout while performing remote function."), true, []⟩
  | CEv.recvOther :: _ =>
      ⟨COut.commError (str "Error receiving remote function output."), false, []⟩
  | _ => ⟨COut.stuck, true, []⟩

/-- Step 6 of `make_rpc_call`: await the acknowledgement of the
arguments (`recv_lp()` under a blanket `except Exception` ⇒ disconnect
+ `CommunicationError`); empty ⇒ disconnect + `CommunicationError`;
`NACK` ⇒ `RemoteError` with `response[5:]`; `EXCEPTION` ⇒ re-raise the
deserialized error; otherwise continue to the result wait. -/
def mrcAwaitAck2 (evs : List CEv) : CRes :=
  match evs with
  | CEv.recvFrame s :: rest =>
      if s = [] then ⟨COut.commError (str "Connection closed by server."), false, []⟩
      else if s.take 4 = str "NACK" then ⟨COut.remoteError (s.drop 5), true, []⟩
      else if s.take 9 = str "EXCEPTION" then
        match loads (s.drop 10) with
        | some e => ⟨COut.raised e, true, []⟩
        | none => ⟨COut.remoteError (str "Unknown exception raised on server."), true, []⟩
      else mrcAwaitResult rest
  | CEv.recvTmo :: _ =>
      ⟨COut.commError (str "Server did not ack receipt of input."), false, []⟩
  | CEv.recvTsErr :: _ =>
      ⟨COut.commError (str "Server did not ack receipt of input."), false, []⟩
  | CEv.recvOther :: _ =>
      ⟨COut.commError (str "Server did not ack receipt of input."), false, []⟩
  | _ => ⟨COut.stuck, true, []⟩

/-- Step 5 of `make_rpc_call`: send the marshalled argument tuple; a
send failure is disconnect + `CommunicationError`. -/
def mrcSendInput (marshalled : Chars) (evs : List CEv) : CRes :=
  match evs with
  | CEv.sendOk :: rest =>
      let r := mrcAwaitAck2 rest
      { r with sent := marshalled :: r.sent }
  | CEv.sendErr :: _ =>
      ⟨COut.commError (str "Error sending function input to server."), false, []⟩
  | _ => ⟨COut.stuck, true, []⟩

/-- Step 4 of `make_rpc_call`: await the acknowledgement of the
`PERFORM` request (`recv_lp()` under a blanket `except Exception` ⇒
disconnect + `CommunicationError`); empty ⇒ disconnect +
`CommunicationError`; `NACK` ⇒ `RemoteError` with `response[5:]` and no
disconnect; any other frame falls through to sending the input. -/
def mrcAwaitAck1 (marshalled : Chars) (evs : List CEv) : CRes :=
  match evs with
  | CEv.recvFrame s :: rest =>
      if s = [] then ⟨COut.commError (str "Connection closed by server."), false, []⟩
      else if s.take 4 = str "NACK" then ⟨COut.remoteError (s.drop 5), true, []⟩
      else mrcSendInput marshalled rest
  | CEv.recvTmo :: _ =>
      ⟨COut.commError (str "Server did not respond to PERFORM request."), false, []⟩
  | CEv.recvTsErr :: _ =>
      ⟨COut.commError (str "Server did not respond to PERFORM request."), false, []⟩
  | CEv.recvOther :: _ =>
      ⟨COut.commError (str "Server did not respond to PERFORM request."), false, []⟩
  | _ => ⟨COut.stuck, true, []⟩

/-- Steps 2–3 of `make_rpc_call`: marshal the input (total on this
value domain, so the `MarshalingError` branch of step 2 is dead) and
send `PERFORM <name>`; a send failure is disconnect +
`CommunicationError`. -/
def mrcSendPerform (name : Chars) (input : PyVal) (evs : List CEv) : CRes :=
  match evs with
  | CEv.sendOk :: rest =>
      let r := mrcAwaitAck1 (dumps input) rest
      { r with sent := (str "PERFORM " ++ name) :: r.sent }
  | CEv.sendErr :: _ =>
      ⟨COut.commError (str "Error sending PERFORM request to server."), false, []⟩
  | _ => ⟨COut.stuck, true, []⟩

/-- `SCProxy.make_rpc_call(function_name, *function_input)`: under the
proxy lock, reconnect when not connected (failure: `CommunicationError`
with the flag still false), then run the call sequence. -/
def make_rpc_call (connected : Bool) (name : Chars) (input : PyVal)
    (evs : List CEv) : CRes :=
  if connected then mrcSendPerform name input evs
  else
    match evs with
    | CEv.connOk :: rest => mrcSendPerform name input rest
    | CEv.connErr :: _ =>
        ⟨COut.commError (str "Error connecting to RPC server."), false, []⟩
    | _ => ⟨COut.stuck, false, []⟩

/-- C2 counterexample: while awaiting the final result (step 7), a
generic transport fault — a `TimedSocket.Exception` such as the
"Connection broken?" / "Not enough data was received." errors,
modelled by the `recvTsErr` event — does **not** cause a disconnect and
a `CommunicationError`.  The `except (TimedSocket.Timeout,
TimedSocket.Exception)` clause at client.py:161 catches it together
with timeouts, so the call raises `RemoteError('Timeout while
performing remote function.')` and leaves the proxy connected,
refuting the claim that every non-timeout transport fault there yields
disconnect + `CommunicationError`. -/
theorem C2_counterexample :
    make_rpc_call true (str "add") (PyVal.vtup [2, 3])
      [CEv.sendOk, CEv.recvFrame (str "ACK"), CEv.sendOk,
        CEv.recvFrame (str "ACK"), CEv.recvTsErr] =
      ⟨COut.remoteError (str "Timeout while performing remote function."), true,
        [str "PERFORM add", dumps (PyVal.vtup [2, 3])]⟩ := by
  decide

/-- C2 (amended): while awaiting the final result (step 7, the long
`MAX_CALL_LENGTH` wait), a `TimedSocket.Timeout` **or any other
`TimedSocket.Exception`-level transport fault** raises
`RemoteError('Timeout while performing remote function.')` and leaves
the connection connected; only an exception outside the `TimedSocket`
hierarchy causes a disconnect and `CommunicationError`.  The script
fixes a run that reached step 7: `a` and `b` are the two non-`NACK`,
non-`EXCEPTION`, nonempty acknowledgement frames of steps 4 and 6. -/
theorem C2_result_wait_faults (name : Chars) (input : PyVal) (a b : Chars)
    (ha1 : a ≠ []) (ha2 : a.take 4 ≠ str "NACK")
    (hb1 : b ≠ []) (hb2 : b.take 4 ≠ str "NACK")
    (hb3 : b.take 9 ≠ str "EXCEPTION") :
    (∀ e, e = CEv.recvTmo ∨ e = CEv.recvTsErr →
      make_rpc_call true name input
        [CEv.sendOk, CEv.recvFrame a, CEv.sendOk, CEv.recvFrame b, e] =
        ⟨COut.remoteError (str "Timeout while performing remote function."), true,
          [str "PERFORM " ++ name, dumps input]⟩) ∧
    make_rpc_call true name input
        [CEv.sendOk, CEv.recvFrame a, CEv.sendOk, CEv.recvFrame b, CEv.recvOther] =
      ⟨COut.commError (str "Error receiving remote function output."), false,
        [str "PERFORM " ++ name, dumps input]⟩ := by
  constructor
  · rintro e (rfl | rfl) <;>
      simp [make_rpc_call, mrcSendPerform, mrcAwaitAck1, mrcSendInput,
        mrcAwaitAck2, mrcAwaitResult, ha1, ha2, hb1, hb2, hb3]
  · simp [make_rpc_call, mrcSendPerform, mrcAwaitAck1, mrcSendInput,
      mrcAwaitAck2, mrcAwaitResult, ha1, ha2, hb1, hb2, hb3]

/-- C2 witness: the amended behaviour at concrete `ACK`/`ACK` frames. -/
theorem C2_result_wait_faults_witness :
    make_rpc_call true (str "add") (PyVal.vtup [2, 3])
      [CEv.sendOk, CEv.recvFrame (str "ACK"), CEv.sendOk,
        CEv.recvFrame (str "ACK"), CEv.recvTmo] =
      ⟨COut.remoteError (str "Timeout while performing remote function."), true,
        [str "PERFORM " ++ str "add", dumps (PyVal.vtup [2, 3])]⟩ ∧
    make_rpc_call true (str "add") (PyVal.vtup [2, 3])
      [CEv.sendOk, CEv.recvFrame (str "ACK"), CEv.sendOk,
        CEv.recvFrame (str "ACK"), CEv.recvOther] =
      ⟨COut.commError (str "Error receiving remote function output."), false,
        [str "PERFORM " ++ str "add", dumps (PyVal.vtup [2, 3])]⟩ :=
  ⟨(C2_result_wait_faults (str "add") (PyVal.vtup [2, 3]) (str "ACK") (str "ACK")
      (by decide) (by decide) (by decide) (by decide) (by decide)).1
      CEv.recvTmo (Or.inl rfl),
   (C2_result_wait_faults (str "add") (PyVal.vtup [2, 3]) (str "ACK") (str "ACK")
      (by decide) (by decide) (by decide) (by decide) (by decide)).2⟩

/-! ## Server model: registry, `SCWorker` and `SCRPC` bookkeeping

A Python callable is modelled with its `type()` (what
`register_function` inspects), its `__name__`, and its behaviour when
called — either with an unpacked argument tuple (`onArgs`, used by
`function(*argument_list)`) or with a single boolean (`onFlag`, how the
`<name>_intent` hooks are invoked).  `FnRes.exn` models the call
raising an exception. -/

/-- `type(obj)` for the callables that can reach `register_function`:
plain functions (which is also the type of a lambda), bound methods,
built-in functions, instances of callable classes, and
`functools`-wrapper objects such as `functools.partial(...)`. -/
inductive PyType
  | functionType
  | methodType
  | builtinFunctionType
  | instanceType
  | functoolsType
deriving DecidableEq

inductive FnRes
  | ret (v : PyVal)
  | exn (e : PyVal)
deriving DecidableEq

structure PyCallable where
  kind : PyType
  pyname : Chars
  onArgs : List Nat → FnRes
  onFlag : Bool → FnRes

/-- The server's `__functions` dict (unique keys by construction). -/
abbrev Registry := List (Chars × PyCallable)

/-- `SCRPC.get_function`: dict lookup returning `None` when absent. -/
def get_function : Registry → Chars → Option PyCallable
  | [], _ => none
  | (k, f) :: rest, name => if k = name then some f else get_function rest name

/-- The `rpc_name` argument of `register_function` with its Python
type: a `str`, or a value of any other type. -/
inductive PyNameArg
  | pyStr (s : Chars)
  | nonStr
deriving DecidableEq

inductive RegErr
  | typeError
  | dupName (name : Chars)
deriving DecidableEq

/-- `SCRPC.register_function(rpc_function, rpc_name='')`: `TypeError`
unless `type(rpc_function) in (FunctionType, MethodType)` and
`type(rpc_name)` is `str`; an empty name defaults to the callable's
`__name__`; a name already present raises the duplicate-name
`SCRPC.Error` (before the dict is touched); otherwise the mapping is
added. -/
def register_function (functions : Registry) (rpc_function : PyCallable)
    (rpc_name : PyNameArg) : Except RegErr Registry :=
  if ¬(rpc_function.kind = PyType.functionType ∨
      rpc_function.kind = PyType.methodType) then
    Except.error RegErr.typeError
  else
    match rpc_name with
    | PyNameArg.nonStr => Except.error RegErr.typeError
    | PyNameArg.pyStr s =>
        let name := if s = [] then rpc_function.pyname else s
        match get_function functions name with
        | some _ => Except.error (RegErr.dupName name)
        | none => Except.ok (functions ++ [(name, rpc_function)])

/-! ### `SCWorker.__perform_rpc`

The worker's I/O during one `PERFORM` exchange is scripted: `sendOk` /
`sendErr` are the outcomes of a `send_lp` (`sendErr` covering the
`TimedSocket.Timeout` and `TimedSocket.Exception` caught together by
every `except` clause around sends), `recvFrame` / `recvErr` those of
the argument `recv_lp`.  The result records how `__perform_rpc` left
the worker loop (`cont` = returned `True`, `fatal` = returned `False`
after calling `disconnect_client`, `exn` = an exception — e.g. from an
intent hook — propagated out of `__perform_rpc`), the frames
successfully sent, and the boolean arguments passed to the intent
hook, in order.  The pickled `UnpicklingError` object sent back on an
unmarshalling failure is modelled as `unpickleErrVal`. -/

inductive SEv
  | sendOk
  | sendErr
  | recvFrame (s : Chars)
  | recvErr
deriving DecidableEq

inductive POut
  | cont
  | fatal
  | exn
  | stuck
deriving DecidableEq

structure PRes where
  out : POut
  sent : List Chars
  intents : List Bool
deriving DecidableEq

def unpickleErrVal : PyVal := PyVal.vexc (str "UnpicklingError")

/-- The `if intent_function: intent_function(True)` pattern inside the
`except` blocks of `__perform_rpc`, followed by `disconnect_client();
return False`.  A hook that itself raises propagates out of the
method (`exn`) before `disconnect_client` is reached. -/
def intentThenFatal (g? : Option PyCallable) (sentAcc : List Chars)
    (intAcc : List Bool) : PRes :=
  match g? with
  | none => ⟨POut.fatal, sentAcc, intAcc⟩
  | some g =>
      match g.onFlag true with
      | FnRes.exn _ => ⟨POut.exn, sentAcc, intAcc ++ [true]⟩
      | FnRes.ret _ => ⟨POut.fatal, sentAcc, intAcc ++ [true]⟩

/-- Invoking the target callable (`cmd_output = function(*argument_list)`)
and returning its result: a raised exception is pickled into an
`EXCEPTION` frame (connection stays open), a value is pickled into a
`RESULT` frame; a send failure either way is fatal. -/
def performCall (f : PyCallable) (args : List Nat) (sentAcc : List Chars)
    (intAcc : List Bool) (evs : List SEv) : PRes :=
  match f.onArgs args with
  | FnRes.exn e =>
      match evs with
      | SEv.sendOk :: _ =>
          ⟨POut.cont, sentAcc ++ [str "EXCEPTION " ++ dumps e], intAcc⟩
      | SEv.sendErr :: _ => ⟨POut.fatal, sentAcc, intAcc⟩
      | _ => ⟨POut.stuck, sentAcc, intAcc⟩
  | FnRes.ret v =>
      match evs with
      | SEv.sendOk :: _ =>
          ⟨POut.cont, sentAcc ++ [str "RESULT " ++ dumps v], intAcc⟩
      | SEv.sendErr :: _ => ⟨POut.fatal, sentAcc, intAcc⟩
      | _ => ⟨POut.stuck, sentAcc, intAcc⟩

/-- The argument type check: a non-tuple draws `NACK Argument must be a
tuple.` followed by an `intent_function(True)` call and a normal return
to the command loop; a tuple draws `ACK` and the actual call.  A send
failure in either branch runs the `except` path (`intent(True)`,
disconnect, `False`). -/
def performTypeCheck (f : PyCallable) (g? : Option PyCallable) (v : PyVal)
    (sentAcc : List Chars) (intAcc : List Bool) (evs : List SEv) : PRes :=
  match v with
  | PyVal.vtup args =>
      match evs with
      | SEv.sendOk :: rest =>
          performCall f args (sentAcc ++ [str "ACK"]) intAcc rest
      | SEv.sendErr :: _ => intentThenFatal g? sentAcc intAcc
      | _ => ⟨POut.stuck, sentAcc, intAcc⟩
  | _ =>
      match evs with
      | SEv.sendOk :: _ =>
          match g? with
          | none =>
              ⟨POut.cont, sentAcc ++ [str "NACK Argument must be a tuple."], intAcc⟩
          | some g =>
              match g.onFlag true with
              | FnRes.exn _ =>
                  ⟨POut.exn, sentAcc ++ [str "NACK Argument must be a tuple."],
                    intAcc ++ [true]⟩
              | FnRes.ret _ =>
                  ⟨POut.cont, sentAcc ++ [str "NACK Argument must be a tuple."],
                    intAcc ++ [true]⟩
      | SEv.sendErr :: _ => intentThenFatal g? sentAcc intAcc
      | _ => ⟨POut.stuck, sentAcc, intAcc⟩

/-- Unmarshalling the argument payload: an `UnpicklingError` draws an
`intent_function(True)` call (outside any `try`: a raising hook
propagates) and then an `EXCEPTION` frame with the pickled error (a
send failure being fatal); success continues to the type check. -/
def performUnmarshal (f : PyCallable) (g? : Option PyCallable) (s : Chars)
    (sentAcc : List Chars) (intAcc : List Bool) (evs : List SEv) : PRes :=
  match loads s with
  | some v => performTypeCheck f g? v sentAcc intAcc evs
  | none =>
      let sendExc : List Bool → PRes := fun ints =>
        match evs with
        | SEv.sendOk :: _ =>
            ⟨POut.cont, sentAcc ++ [str "EXCEPTION " ++ dumps unpickleErrVal], ints⟩
        | SEv.sendErr :: _ => ⟨POut.fatal, sentAcc, ints⟩
        | _ => ⟨POut.stuck, sentAcc, ints⟩
      match g? with
      | none => sendExc intAcc
      | some g =>
          match g.onFlag true with
          | FnRes.exn _ => ⟨POut.exn, sentAcc, intAcc ++ [true]⟩
          | FnRes.ret _ => sendExc (intAcc ++ [true])

/-- Receiving the argument payload (`recv_lp()`, no poll timeout): an
empty frame (peer closed) is fatal; a transport error runs the
`except` path (`intent(True)`, disconnect, `False`). -/
def performRecvInput (f : PyCallable) (g? : Option PyCallable)
    (sentAcc : List Chars) (intAcc : List Bool) (evs : List SEv) : PRes :=
  match evs with
  | SEv.recvFrame s :: rest =>
      if s = [] then ⟨POut.fatal, sentAcc, intAcc⟩
      else performUnmarshal f g? s sentAcc intAcc rest
  | SEv.recvErr :: _ => intentThenFatal g? sentAcc intAcc
  | _ => ⟨POut.stuck, sentAcc, intAcc⟩

/-- The `<HACK>` block of `__perform_rpc`: after the `ACK`, look up
`'%s_intent' % function_name` and, when registered, invoke it with
`False` — before the argument payload is received.  The call is
outside any `try`: a raising hook propagates out of `__perform_rpc`. -/
def performIntent (functions : Registry) (function_name : Chars)
    (f : PyCallable) (evs : List SEv) : PRes :=
  match get_function functions (function_name ++ str "_intent") with
  | some g =>
      match g.onFlag false with
      | FnRes.exn _ => ⟨POut.exn, [str "ACK"], [false]⟩
      | FnRes.ret _ => performRecvInput f (some g) [str "ACK"] [false] evs
  | none => performRecvInput f none [str "ACK"] [] evs

/-- `SCWorker.__perform_rpc(function_name)`: look the name up; found ⇒
send `ACK` and continue the exchange, not found ⇒ send
`NACK Function (<name>) does not exist.` and return `True` (a normal,
non-fatal outcome); a failure sending either response is fatal. -/
def perform_rpc (functions : Registry) (function_name : Chars)
    (evs : List SEv) : PRes :=
  match get_function functions function_name with
  | some f =>
      match evs with
      | SEv.sendOk :: rest => performIntent functions function_name f rest
      | SEv.sendErr :: _ => ⟨POut.fatal, [], []⟩
      | _ => ⟨POut.stuck, [], []⟩
  | none =>
      match evs with
      | SEv.sendOk :: _ =>
          ⟨POut.cont,
            [str "NACK Function (" ++ function_name ++ str ") does not exist."], []⟩
      | SEv.sendErr :: _ => ⟨POut.fatal, [], []⟩
      | _ => ⟨POut.stuck, [], []⟩

/-! ### `SCWorker.run` -/

/-- One iteration of the worker's command loop: the shutdown flag read
at the loop top (`shutdownNow` exits), or the outcome of
`recv_lp(POLL_PERIOD)`: a frame (with the I/O script for handling it),
a `Timeout` (re-poll), or a `TimedSocket.Exception` (connection
presumed broken). -/
inductive WEv
  | shutdownNow
  | cmdFrame (s : Chars) (pevs : List SEv)
  | cmdTmo
  | cmdTsErr

/-- Why the worker loop exited.  `scriptEnd` is a model artifact for an
exhausted event script. -/
inductive WExit
  | shutdown
  | peerClosed
  | cmdTransportErr
  | performFatal
  | performExn
  | scriptEnd
deriving DecidableEq

structure WRes where
  sent : List Chars
  intents : List Bool
  exit : WExit
deriving DecidableEq

/-- `SCWorker.run`: loop until the server shuts down; an empty command
frame is a peer close (exit), a poll timeout re-polls, a transport
error exits; a frame whose first seven characters are `PERFORM` is
dispatched to `__perform_rpc(cmd[8:])` (`False` or an unhandled
exception breaks the loop); any other frame is ignored.  On every exit
path `disconnect_client` follows (see `disconnect_client`). -/
def workerRun (functions : Registry) : List WEv → WRes
  | [] => ⟨[], [], WExit.scriptEnd⟩
  | WEv.shutdownNow :: _ => ⟨[], [], WExit.shutdown⟩
  | WEv.cmdTmo :: rest => workerRun functions rest
  | WEv.cmdTsErr :: _ => ⟨[], [], WExit.cmdTransportErr⟩
  | WEv.cmdFrame s pevs :: rest =>
      if s = [] then ⟨[], [], WExit.peerClosed⟩
      else if s.take 7 = str "PERFORM" then
        let r := perform_rpc functions (s.drop 8) pevs
        match r.out with
        | POut.cont =>
            let w := workerRun functions rest
            ⟨r.sent ++ w.sent, r.intents ++ w.intents, w.exit⟩
        | POut.fatal => ⟨r.sent, r.intents, WExit.performFatal⟩
        | POut.exn => ⟨r.sent, r.intents, WExit.performExn⟩
        | POut.stuck => ⟨r.sent, r.intents, WExit.scriptEnd⟩
      else workerRun functions rest

/-! ### `SCRPC` connection bookkeeping -/

/-- The `SCRPC` server state as `__init__` creates it: the function
table and the shutdown flag.  `connections = none` records that the
`__connections` list (and its `__connections_lock`) are **never
created** by `__init__`, so any attribute access on them raises
`AttributeError`. -/
structure SCRPCState where
  functions : Registry
  shutdownFlag : Bool
  connections : Option (List Nat)

def scrpcInit : SCRPCState := ⟨[], false, none⟩

/-- `SCRPC.remove_connection`: `with self.__connections_lock:
self.__connections.remove(connection)`.  `none` models a raised
exception: `AttributeError` when the attributes were never created,
`ValueError` when the worker is not in the list. -/
def remove_connection (st : SCRPCState) (w : Nat) : Option SCRPCState :=
  match st.connections with
  | none => none
  | some l =>
      if w ∈ l then some ⟨st.functions, st.shutdownFlag, some (l.erase w)⟩
      else none

/-- `SCWorker.disconnect_client`: `try: remove_connection; close()
except: pass`.  When `remove_connection` raises, the bare `except`
swallows the error **and the `close()` call is skipped**, leaving the
worker socket open.  Returns the server state and whether the worker
socket is still open afterwards. -/
def disconnect_client (st : SCRPCState) (w : Nat) (sockOpen : Bool) :
    SCRPCState × Bool :=
  match remove_connection st w with
  | none => (st, sockOpen)
  | some st' => (st', false)

/-- One iteration of the accept loop of `SCRPC.run`: a ready listening
socket yields `SCWorker(new_sock, self)` + `start()` — the worker id is
appended to the spawned list, and `add_connection` is **never**
invoked; a `Timeout` just re-polls. -/
def acceptIter (st : SCRPCState) (spawned : List Nat) (ready : Option Nat) :
    SCRPCState × List Nat :=
  match ready with
  | some w => (st, spawned ++ [w])
  | none => (st, spawned)

/-- C3: the live-worker bookkeeping is broken in the code.  After the
server accepts a connection and spawns worker 0, the manager's
`__connections` attribute still does not exist (the accept loop never
calls `add_connection`); and when the worker loop exits,
`disconnect_client` leaves the server state unchanged **and the worker
socket open**: `remove_connection` raises `AttributeError` (the
attributes were never created), and the bare `except` of
`disconnect_client` swallows it before `close()` is reached. -/
theorem C3_connection_bookkeeping :
    (acceptIter scrpcInit [] (some 0)).1.connections = none ∧
    (acceptIter scrpcInit [] (some 0)).2 = [0] ∧
    disconnect_client scrpcInit 0 true = (scrpcInit, true) :=
  ⟨rfl, rfl, rfl⟩

theorem take7_perform (name : Chars) :
    (str "PERFORM " ++ name).take 7 = str "PERFORM" := rfl

theorem drop8_perform (name : Chars) :
    (str "PERFORM " ++ name).drop 8 = name := rfl

theorem take4_nack (reason : Chars) :
    (str "NACK " ++ reason).take 4 = str "NACK" := rfl

theorem drop5_nack (reason : Chars) :
    (str "NACK " ++ reason).drop 5 = reason := rfl

/-- A registered `add(a, b) -> a + b` function (raising `TypeError`
on a wrong argument count, as Python would). -/
def addFn : PyCallable :=
  ⟨PyType.functionType, str "add",
    fun args =>
      match args with
      | [a, b] => FnRes.ret (PyVal.vnat (a + b))
      | _ => FnRes.exn (PyVal.vexc (str "TypeError")),
    fun _ => FnRes.ret (PyVal.vnat 0)⟩

def addReg : Registry := [(str "add", addFn)]

/-- An intent hook that raises whenever it is invoked. -/
def raisingIntent : PyCallable :=
  ⟨PyType.functionType, str "foo_intent",
    fun _ => FnRes.exn (PyVal.vexc (str "boom")),
    fun _ => FnRes.exn (PyVal.vexc (str "boom"))⟩

/-- A registry with `foo` and a `foo_intent` hook that raises. -/
def fooReg : Registry := [(str "foo", addFn), (str "foo_intent", raisingIntent)]

/-- C6 counterexample: a raised exception from the intent hook **does**
terminate the worker's connection.  With `foo` and a raising
`foo_intent` registered, a `PERFORM foo` command makes the worker send
`ACK`, invoke `foo_intent(False)`, and then exit the command loop with
the unhandled exception (`SCWorker.run` catches it and breaks, after
which `disconnect_client` runs): a second scripted `PERFORM foo`
command is never served.  Nothing beyond the `ACK` is sent, so the
failure is indeed not surfaced to the client — but the connection does
not survive, refuting that part of the claim. -/
theorem C6_counterexample :
    workerRun fooReg
      [WEv.cmdFrame (str "PERFORM foo") [SEv.sendOk],
        WEv.cmdFrame (str "PERFORM foo") [SEv.sendOk]] =
      ⟨[str "ACK"], [false], WExit.performExn⟩ := by
  decide

/-- C6 (amended): when `name` and `name_intent` are both registered,
the worker invokes the intent hook with `False` after sending `ACK`
and **before** consuming any argument-receive event; the hook's own
failure is not surfaced to the client (no further frame is sent), but
it is not harmless either: the exception propagates out of
`__perform_rpc`, the worker loop breaks (`performExn`), and the
connection is torn down. -/
theorem C6_intent_hook (functions : Registry) (name : Chars)
    (f g : PyCallable)
    (hf : get_function functions name = some f)
    (hg : get_function functions (name ++ str "_intent") = some g) :
    (∀ e evs, g.onFlag false = FnRes.exn e →
      perform_rpc functions name (SEv.sendOk :: evs) =
        ⟨POut.exn, [str "ACK"], [false]⟩) ∧
    (∀ v evs, g.onFlag false = FnRes.ret v →
      perform_rpc functions name (SEv.sendOk :: evs) =
        performRecvInput f (some g) [str "ACK"] [false] evs) ∧
    (∀ e pevs rest, g.onFlag false = FnRes.exn e →
      workerRun functions
          (WEv.cmdFrame (str "PERFORM " ++ name) (SEv.sendOk :: pevs) :: rest) =
        ⟨[str "ACK"], [false], WExit.performExn⟩) := by
  have hcore : ∀ e evs, g.onFlag false = FnRes.exn e →
      perform_rpc functions name (SEv.sendOk :: evs) =
        ⟨POut.exn, [str "ACK"], [false]⟩ := by
    intro e evs he
    simp [perform_rpc, hf, performIntent, hg, he]
  refine ⟨hcore, ?_, ?_⟩
  · intro v evs hv
    simp [perform_rpc, hf, performIntent, hg, hv]
  · intro e pevs rest he
    have hne : str "PERFORM " ++ name ≠ [] := by
      intro hc
      exact absurd (congrArg List.length hc) (by simp [str])
    rw [workerRun]
    simp [hne, take7_perform, drop8_perform, hcore e pevs he]

/-- C6 witness: the amended statement at the concrete registry
`fooReg`. -/
theorem C6_intent_hook_witness :
    perform_rpc fooReg (str "foo") [SEv.sendOk] =
      ⟨POut.exn, [str "ACK"], [false]⟩ ∧
    workerRun fooReg
        [WEv.cmdFrame (str "PERFORM " ++ str "foo") [SEv.sendOk]] =
      ⟨[str "ACK"], [false], WExit.performExn⟩ :=
  ⟨(C6_intent_hook fooReg (str "foo") addFn raisingIntent rfl rfl).1
      (PyVal.vexc (str "boom")) [] rfl,
   (C6_intent_hook fooReg (str "foo") addFn raisingIntent rfl rfl).2.2
      (PyVal.vexc (str "boom")) [] [] rfl⟩

/-- C7: unknown function.  (1) For any registry without `name`, the
worker sends `NACK Function (<name>) does not exist.` and
`__perform_rpc` returns `True` — a normal outcome with no intent call
and no disconnect.  (2) At the loop level the worker then continues
with the following commands, the NACK frame merely prefixed to the
rest of the session.  (3) The client receiving a `NACK <reason>` frame
for its `PERFORM` raises `RemoteError` carrying exactly the server's
reason text and stays connected.  (4)–(6) A concrete composed session:
on one connection, `PERFORM mul` (unregistered) draws the NACK and then
`PERFORM add` with arguments `(2, 3)` succeeds end to end — the worker
sends exactly the frames the client script consumes, the client's
first call raises `RemoteError('Function (mul) does not exist.')`
while staying connected, and its second call returns `5`. -/
theorem C7_unknown_function :
    (∀ functions name evs, get_function functions name = none →
      perform_rpc functions name (SEv.sendOk :: evs) =
        ⟨POut.cont,
          [str "NACK Function (" ++ name ++ str ") does not exist."], []⟩) ∧
    (∀ functions name rest, get_function functions name = none →
      workerRun functions
          (WEv.cmdFrame (str "PERFORM " ++ name) [SEv.sendOk] :: rest) =
        ⟨(str "NACK Function (" ++ name ++ str ") does not exist.") ::
            (workerRun functions rest).sent,
          (workerRun functions rest).intents,
          (workerRun functions rest).exit⟩) ∧
    (∀ name input reason,
      make_rpc_call true name input
          [CEv.sendOk, CEv.recvFrame (str "NACK " ++ reason)] =
        ⟨COut.remoteError reason, true, [str "PERFORM " ++ name]⟩) ∧
    (workerRun addReg
        [WEv.cmdFrame (str "PERFORM mul") [SEv.sendOk],
          WEv.cmdFrame (str "PERFORM add")
            [SEv.sendOk, SEv.recvFrame (dumps (PyVal.vtup [2, 3])),
              SEv.sendOk, SEv.sendOk]] =
      ⟨[str "NACK Function (mul) does not exist.", str "ACK", str "ACK",
          str "RESULT " ++ dumps (PyVal.vnat 5)], [], WExit.scriptEnd⟩) ∧
    (make_rpc_call true (str "mul") (PyVal.vtup [2, 3])
        [CEv.sendOk, CEv.recvFrame (str "NACK Function (mul) does not exist.")] =
      ⟨COut.remoteError (str "Function (mul) does not exist."), true,
        [str "PERFORM mul"]⟩) ∧
    (make_rpc_call true (str "add") (PyVal.vtup [2, 3])
        [CEv.sendOk, CEv.recvFrame (str "ACK"), CEv.sendOk,
          CEv.recvFrame (str "ACK"),
          CEv.recvFrame (str "RESULT " ++ dumps (PyVal.vnat 5))] =
      ⟨COut.ok (PyVal.vnat 5), true,
        [str "PERFORM add", dumps (PyVal.vtup [2, 3])]⟩) := by
  have hperf : ∀ functions name evs,
      get_function functions name = none →
      perform_rpc functions name (SEv.sendOk :: evs) =
        ⟨POut.cont,
          [str "NACK Function (" ++ name ++ str ") does not exist."], []⟩ := by
    intro functions name evs h
    simp [perform_rpc, h]
  refine ⟨hperf, ?_, ?_, by decide, by decide, by decide⟩
  · intro functions name rest h
    have hne : str "PERFORM " ++ name ≠ [] := by
      intro hc
      exact absurd (congrArg List.length hc) (by simp [str])
    rw [workerRun]
    simp [hne, take7_perform, drop8_perform, hperf functions name [] h]
  · intro name input reason
    have hne : str "NACK " ++ reason ≠ [] := by
      intro hc
      exact absurd (congrArg List.length hc) (by simp [str])
    simp [make_rpc_call, mrcSendPerform, mrcAwaitAck1, hne, take4_nack,
      drop5_nack]

/-- C7 witness: the universally quantified parts instantiated at the
concrete registry `addReg` and the unregistered name `mul`. -/
theorem C7_unknown_function_witness :
    perform_rpc addReg (str "mul") [SEv.sendOk] =
      ⟨POut.cont,
        [str "NACK Function (" ++ str "mul" ++ str ") does not exist."], []⟩ ∧
    make_rpc_call true (str "mul") (PyVal.vtup [2, 3])
        [CEv.sendOk, CEv.recvFrame (str "NACK " ++ str "kaput")] =
      ⟨COut.remoteError (str "kaput"), true, [str "PERFORM " ++ str "mul"]⟩ :=
  ⟨C7_unknown_function.1 addReg (str "mul") [] rfl,
   C7_unknown_function.2.2.1 (str "mul") (PyVal.vtup [2, 3]) (str "kaput")⟩

theorem get_function_append (functions : Registry) (name : Chars)
    (f : PyCallable) (other : Chars)
    (h : get_function functions name = none) :
    get_function (functions ++ [(name, f)]) other =
      if name = other then some f else get_function functions other := by
  induction functions with
  | nil => simp [get_function]
  | cons p rest ih =>
    obtain ⟨k, g⟩ := p
    rw [get_function] at h
    by_cases hk : k = name
    · rw [if_pos hk] at h
      exact absurd h (by simp)
    · rw [if_neg hk] at h
      by_cases hko : k = other
      · have hno : ¬(name = other) := fun hc => hk (hc ▸ hko)
        simp [get_function, hko, hno]
      · simp [get_function, hko, ih h]

/-- C8: for every registry state, registering a callable of an
acceptable type under the chosen name — the given `rpc_name`, or the
callable's own `__name__` when none is supplied (the default `''`) —
fails with the duplicate-name `SCRPC.Error` when the name is already
registered (the `Except.error` result leaving the registry untouched,
as the `raise` precedes the dict assignment in the original); and
otherwise succeeds, storing exactly `name ↦ rpc_function` while every
other name resolves as before. -/
theorem C8_register_function (functions : Registry) (f : PyCallable)
    (s : Chars)
    (hk : f.kind = PyType.functionType ∨ f.kind = PyType.methodType) :
    ((∃ g, get_function functions (if s = [] then f.pyname else s) = some g) →
      register_function functions f (PyNameArg.pyStr s) =
        Except.error (RegErr.dupName (if s = [] then f.pyname else s))) ∧
    (get_function functions (if s = [] then f.pyname else s) = none →
      ∃ l, register_function functions f (PyNameArg.pyStr s) = Except.ok l ∧
        get_function l (if s = [] then f.pyname else s) = some f ∧
        ∀ other, other ≠ (if s = [] then f.pyname else s) →
          get_function l other = get_function functions other) := by
  constructor
  · rintro ⟨g, hg⟩
    simp [register_function, hk, hg]
  · intro h
    refine ⟨functions ++ [(if s = [] then f.pyname else s, f)], ?_, ?_, ?_⟩
    · simp [register_function, hk, h]
    · rw [get_function_append functions _ f _ h]
      simp
    · intro other hother
      rw [get_function_append functions _ f other h]
      rw [if_neg (fun hc => hother hc.symm)]

/-- C8 witness: with `add` already registered, re-registering under the
explicit name `add` draws the duplicate error, while registering the
same callable under its default `__name__` (empty `rpc_name`, callable
named `add2`) succeeds and preserves the `add` entry. -/
theorem C8_register_function_witness :
    (register_function addReg addFn (PyNameArg.pyStr (str "add")) =
      Except.error (RegErr.dupName (str "add"))) ∧
    ∃ l, register_function addReg
        ⟨PyType.functionType, str "add2", addFn.onArgs, addFn.onFlag⟩
        (PyNameArg.pyStr []) = Except.ok l ∧
      get_function l (str "add2") =
        some ⟨PyType.functionType, str "add2", addFn.onArgs, addFn.onFlag⟩ ∧
      get_function l (str "add") = get_function addReg (str "add") := by
  constructor
  · have h := (C8_register_function addReg addFn (str "add")
      (Or.inl rfl)).1 ⟨addFn, rfl⟩
    simpa using h
  · obtain ⟨l, h1, h2, h3⟩ := (C8_register_function addReg
      ⟨PyType.functionType, str "add2", addFn.onArgs, addFn.onFlag⟩ []
      (Or.inl rfl)).2 rfl
    exact ⟨l, by simpa using h1, by simpa using h2,
      by simpa using h3 (str "add") (by decide)⟩

/-- A `functools` wrapper object, e.g. `functools.partial(lambda a, b:
a + b, 2)`: callable, but its `type()` is `functools.partial`, not
`FunctionType` or `MethodType`. -/
def ftWrapperObj : PyCallable :=
  ⟨PyType.functoolsType, str "ftwrapper", addFn.onArgs, addFn.onFlag⟩

/-- C10: `register_function` type-checks its arguments **before** the
duplicate-name check: for every registry (including one in which the
chosen name is already taken), a callable whose `type()` is not
`FunctionType` or `MethodType` — e.g. a callable class instance, a
built-in function, or a `functools.partial` wrapper object — or a
non-`str` name draws `TypeError`, and the `Except.error` result leaves
the registry unchanged (the `raise` precedes any dict access in the
original). -/
theorem C10_register_type_check (functions : Registry) (f : PyCallable)
    (nameArg : PyNameArg)
    (h : ¬(f.kind = PyType.functionType ∨ f.kind = PyType.methodType) ∨
      nameArg = PyNameArg.nonStr) :
    register_function functions f nameArg = Except.error RegErr.typeError := by
  rcases h with h | h
  · simp [register_function, h]
  · subst h
    by_cases hk : f.kind = PyType.functionType ∨ f.kind = PyType.methodType
    · simp [register_function, hk]
    · simp [register_function, hk]

/-- C10 witness: registering the `functools.partial` wrapper under the
already-taken name `add` draws `TypeError`, not the duplicate-name
error — the type restriction is enforced first; a non-`str` name with a
legitimate function draws `TypeError` as well. -/
theorem C10_register_type_check_witness :
    register_function addReg ftWrapperObj (PyNameArg.pyStr (str "add")) =
      Except.error RegErr.typeError ∧
    register_function addReg addFn PyNameArg.nonStr =
      Except.error RegErr.typeError :=
  ⟨C10_register_type_check addReg ftWrapperObj (PyNameArg.pyStr (str "add"))
      (Or.inl (by decide)),
   C10_register_type_check addReg addFn PyNameArg.nonStr (Or.inr rfl)⟩

/-! ## Shutdown: interleavings of `SCRPC.stop(block)` and `SCRPC.run`

The two threads share the `__shutdown` flag and the `__shutdown_signal`
lock.  `run` executes: acquire the signal lock (pc 0), **reset
`__shutdown = False`** (pc 1), then loop — check the flag (pc 2), poll
`accept` (pc 3, spawning a worker on readiness) — and on exit release
the signal lock (pc 4, then done at 5).  `stop(block=True)` executes:
set `__shutdown = True` (stop pc 0), acquire the signal lock — blocking
while `run` holds it (stop pc 1), release it and return (stop pc 2,
done at 3).  `accepted` counts spawned workers.  Steps on a blocked or
finished thread are no-ops. -/

structure SysState where
  shutdownFlag : Bool
  sigHeld : Bool
  runPC : Nat
  stopPC : Nat
  accepted : Nat
deriving DecidableEq

inductive SysStep
  | runStep (ready : Bool)
  | stopStep
deriving DecidableEq

/-- One interleaving step: execute the next instruction of the chosen
thread (`ready` says whether `select` reports the listening socket
readable during an accept poll). -/
def sysStep : SysState → SysStep → SysState
  | s, SysStep.runStep ready =>
      match s.runPC with
      | 0 => if s.sigHeld then s
             else ⟨s.shutdownFlag, true, 1, s.stopPC, s.accepted⟩
      | 1 => ⟨false, s.sigHeld, 2, s.stopPC, s.accepted⟩
      | 2 => if s.shutdownFlag then ⟨s.shutdownFlag, s.sigHeld, 4, s.stopPC, s.accepted⟩
             else ⟨s.shutdownFlag, s.sigHeld, 3, s.stopPC, s.accepted⟩
      | 3 => if ready then ⟨s.shutdownFlag, s.sigHeld, 2, s.stopPC, s.accepted + 1⟩
             else ⟨s.shutdownFlag, s.sigHeld, 2, s.stopPC, s.accepted⟩
      | 4 => ⟨s.shutdownFlag, false, 5, s.stopPC, s.accepted⟩
      | _ => s
  | s, SysStep.stopStep =>
      match s.stopPC with
      | 0 => ⟨true, s.sigHeld, s.runPC, 1, s.accepted⟩
      | 1 => if s.sigHeld then s
             else ⟨s.shutdownFlag, true, s.runPC, 2, s.accepted⟩
      | 2 => ⟨s.shutdownFlag, false, s.runPC, 3, s.accepted⟩
      | _ => s

def sysRun (s : SysState) : List SysStep → SysState
  | [] => s
  | a :: rest => sysRun (sysStep s a) rest

/-- The state at server construction, before either thread has run. -/
def sysInit : SysState := ⟨false, false, 0, 0, 0⟩

/-- The state with the accept loop already running (past the
`__shutdown = False` reset at the top of `run`, holding the signal
lock, at the loop's flag check), `stop` not yet called, `a` workers
spawned so far. -/
def loopRunning (a : Nat) : SysState := ⟨false, true, 2, 0, a⟩

/-- C5 counterexample: `stop(block=True)` called before `run` starts.
The stop thread sets the flag, acquires and releases the free signal
lock and **returns**; then `run` starts, resets `__shutdown` to
`False`, and accepts a connection.  Final state: the blocking stop has
completed (`stopPC = 3`) while the accept loop is still running
(`runPC = 2`, not exited) and a connection was accepted (`accepted =
1`) after the stop had both been requested and returned — refuting
both halves of the claim. -/
theorem C5_counterexample :
    sysRun sysInit
      [SysStep.stopStep, SysStep.stopStep, SysStep.stopStep,
        SysStep.runStep false, SysStep.runStep false, SysStep.runStep false,
        SysStep.runStep true] =
      ⟨false, true, 2, 3, 1⟩ := by
  decide

/-- The inductive invariant of the started-loop states: the run thread
is past the flag reset, the signal lock is held exactly while `run` is
between its acquire and release or `stop` is between its acquire and
release, a requested stop keeps the flag set (the reset at run pc 1 is
no longer reachable), and `stop` can only get the lock after the loop
has exited. -/
def goodState (s : SysState) : Prop :=
  2 ≤ s.runPC ∧ s.runPC ≤ 5 ∧ s.stopPC ≤ 3 ∧
  (s.sigHeld = true ↔ (s.runPC ≤ 4 ∨ s.stopPC = 2)) ∧
  (1 ≤ s.stopPC → s.shutdownFlag = true) ∧
  (2 ≤ s.stopPC → s.runPC = 5)

theorem goodState_step (s : SysState) (a : SysStep) (h : goodState s) :
    goodState (sysStep s a) := by
  obtain ⟨sf, sh, rpc, spc, acc⟩ := s
  obtain ⟨h1, h2, h3, h4, h5, h6⟩ := h
  simp only at h1 h2 h3 h4 h5 h6
  cases a with
  | runStep ready =>
    interval_cases rpc <;> interval_cases spc <;>
      cases sf <;> cases sh <;> cases ready <;>
      simp_all [sysStep, goodState]
  | stopStep =>
    interval_cases rpc <;> interval_cases spc <;>
      cases sf <;> cases sh <;>
      simp_all [sysStep, goodState]

/-- Pending accept potential: one accept poll may already be in flight
when the flag is set (the loop exits "after its current poll"). -/
def acPot (s : SysState) : Nat := if s.runPC = 3 then 1 else 0

theorem accepted_step (s : SysState) (a : SysStep)
    (h : goodState s) (hsf : s.shutdownFlag = true) :
    (sysStep s a).accepted + acPot (sysStep s a) ≤ s.accepted + acPot s ∧
    (sysStep s a).shutdownFlag = true := by
  obtain ⟨sf, sh, rpc, spc, acc⟩ := s
  obtain ⟨h1, h2, h3, h4, h5, h6⟩ := h
  simp only at h1 h2 h3 h4 h5 h6 hsf
  subst hsf
  cases a with
  | runStep ready =>
    interval_cases rpc <;> cases ready <;>
      simp_all [sysStep, acPot]
  | stopStep =>
    interval_cases spc <;> interval_cases rpc <;> cases sh <;>
      simp_all [sysStep, acPot]

theorem accepted_run (steps : List SysStep) :
    ∀ s, goodState s → s.shutdownFlag = true →
    (sysRun s steps).accepted + acPot (sysRun s steps) ≤
        s.accepted + acPot s ∧
      (sysRun s steps).shutdownFlag = true ∧ goodState (sysRun s steps) := by
  induction steps with
  | nil => exact fun s h hsf => ⟨le_refl _, hsf, h⟩
  | cons a rest ih =>
    intro s h hsf
    obtain ⟨hle, hsf', hg'⟩ := ih (sysStep s a) (goodState_step s a h)
      (accepted_step s a h hsf).2
    refine ⟨le_trans hle (accepted_step s a h hsf).1, hsf', hg'⟩

theorem goodState_run (steps : List SysStep) :
    ∀ s, goodState s → goodState (sysRun s steps) := by
  induction steps with
  | nil => exact fun s h => h
  | cons a rest ih => exact fun s h => ih (sysStep s a) (goodState_step s a h)

theorem sysRun_append (u v : List SysStep) (s : SysState) :
    sysRun s (u ++ v) = sysRun (sysRun s u) v := by
  induction u generalizing s with
  | nil => rfl
  | cons a rest ih => simp [sysRun, ih]

/-- C5 (amended): when `stop` is requested **after the accept loop has
started** (after `run`'s `__shutdown = False` reset — schedules `u`
from `loopRunning`), the requested-stop point onward admits at most the
one accept poll already in flight (`accepted` grows by at most the
pending-poll potential, which is 1 exactly when the request lands
mid-poll and 0 at the loop's flag check), and `stop(block=True)` having
returned (`stopPC = 3`) implies the accept loop has fully exited
(`runPC = 5`).  When `stop` completes before `run` starts, the request
is lost — `run` resets the flag and accepts indefinitely (see the
counterexample). -/
theorem C5_stop_semantics (a : Nat) (u v : List SysStep)
    (hreq : 1 ≤ (sysRun (loopRunning a) u).stopPC) :
    (sysRun (loopRunning a) (u ++ v)).accepted ≤
      (sysRun (loopRunning a) u).accepted +
        acPot (sysRun (loopRunning a) u) ∧
    ((sysRun (loopRunning a) (u ++ v)).stopPC = 3 →
      (sysRun (loopRunning a) (u ++ v)).runPC = 5) := by
  have hg : goodState (sysRun (loopRunning a) u) :=
    goodState_run u (loopRunning a)
      ⟨by simp [loopRunning], by simp [loopRunning], by simp [loopRunning],
        by simp [loopRunning], by simp [loopRunning], by simp [loopRunning]⟩
  have hsf : (sysRun (loopRunning a) u).shutdownFlag = true :=
    hg.2.2.2.2.1 hreq
  rw [sysRun_append]
  obtain ⟨hle, _, hg'⟩ := accepted_run v (sysRun (loopRunning a) u) hg hsf
  refine ⟨le_trans (Nat.le_add_right _ _) hle, ?_⟩
  intro h3
  exact hg'.2.2.2.2.2 (by omega)

/-- C5 witness: from the running loop with no workers, one `stop` step
requests shutdown at the flag check; two further run steps exit the
loop with no connection accepted. -/
theorem C5_stop_semantics_witness :
    (sysRun (loopRunning 0)
        ([SysStep.stopStep] ++ [SysStep.runStep true, SysStep.runStep true])).accepted ≤
      (sysRun (loopRunning 0) [SysStep.stopStep]).accepted +
        acPot (sysRun (loopRunning 0) [SysStep.stopStep]) ∧
    ((sysRun (loopRunning 0)
        ([SysStep.stopStep] ++ [SysStep.runStep true, SysStep.runStep true])).stopPC = 3 →
      (sysRun (loopRunning 0)
        ([SysStep.stopStep] ++ [SysStep.runStep true, SysStep.runStep true])).runPC = 5) :=
  C5_stop_semantics 0 [SysStep.stopStep]
    [SysStep.runStep true, SysStep.runStep true] (by decide)

end Scrpc
